import Mathlib

/-!
Verification of the contract-lifecycle service: a shallow embedding of the
risk-aggregation tool, the approval router and compliance validation, the
API approval handlers (approve / reject / renegotiate / submit), the SSE
event stream, and the lifecycle flow, together with theorems settling the
specification claims.

Sources embedded (module → section below):
* `contract_lifecycle/models.py`            → domain enums and records
* `contract_lifecycle/tools/risk_tools.py`  → `calculate_risk_matrix`
* `contract_lifecycle/agents/approval_router.py` → `determine_approval_chain`
* `contract_lifecycle/crews/approval_crew.py`    → `validate_chain`, crew kickoff
* `contract_lifecycle/flow/conditions.py`   → routing predicates
* `contract_lifecycle/streaming.py`         → `ContractEventStream`
* `contract_lifecycle/api.py`               → session handlers
* `contract_lifecycle/flow/lifecycle_flow.py` → `flowRun`

Machine reals (`float`) are modelled with `ℚ`; timestamps with `ℕ`;
Python dictionaries keyed by session id with functions `String → _`;
the crew/agent text-generation collaborators are passed in as explicit
oracle arguments where the control flow consumes their results.
-/

namespace ContractLifecycle

/-- `ContractType` enum from `models.py`. -/
inductive ContractType where
  | nda
  | saas_agreement
  | vendor_msa
  | employment
  | consulting
  | licensing
deriving DecidableEq

/-- `RiskLevel` enum from `models.py` (a Python `str` enum). -/
inductive RiskLevel where
  | low
  | medium
  | high
  | critical
deriving DecidableEq

/-- The underlying string value of each `RiskLevel` member.  Because the
Python enum subclasses `str`, comparisons between members (as performed by
`max(...)` in `risk_tools.py`) are lexicographic on these strings. -/
def RiskLevel.value : RiskLevel → String
  | .low => "low"
  | .medium => "medium"
  | .high => "high"
  | .critical => "critical"

/-- `LifecycleStage` enum from `models.py`. -/
inductive LifecycleStage where
  | intake
  | analyzing
  | risk_assessing
  | negotiating
  | awaiting_approval
  | approved
  | rejected
  | renegotiating
  | executed
  | failed
deriving DecidableEq

/-- `ApprovalLevel` enum from `models.py` (ascending seniority). -/
inductive ApprovalLevel where
  | auto
  | manager
  | vp
  | legal
  | cfo
deriving DecidableEq

/-- `Clause` model. -/
structure Clause where
  id : String
  title : String
  text : String
  section_ : String := ""
  is_standard : Bool := true
  risk_flags : List String := []
deriving DecidableEq

/-- `RiskAssessment` model. -/
structure RiskAssessment where
  clause_id : String
  risk_level : RiskLevel
  description : String
  recommendation : String
  precedent_reference : Option String := none
deriving DecidableEq

/-- `NegotiationPosition` model. -/
structure NegotiationPosition where
  clause_id : String
  current_terms : String
  proposed_terms : String
  rationale : String
  leverage_points : List String := []
deriving DecidableEq

/-- `ApprovalDecision` model.  The `decision` field is a plain string in the
source (`"pending" | "approved" | "rejected"`); timestamps are modelled as
naturals. -/
structure ApprovalDecision where
  level : ApprovalLevel
  approver : String
  decision : String := "pending"
  comments : String := ""
  timestamp : Nat := 0
deriving DecidableEq

/-- `ContractAnalysis` model (`float` value modelled as `ℚ`). -/
structure ContractAnalysis where
  contract_type : ContractType
  parties : List String := []
  effective_date : String := ""
  expiration_date : String := ""
  total_value : ℚ := 0
  clauses : List Clause := []
  summary : String := ""
deriving DecidableEq

/-- `ContractVersion` model. -/
structure ContractVersion where
  version : Nat
  changes : List String := []
  timestamp : Nat := 0
deriving DecidableEq

/-- `ContractEvent` model (the free-form `data` payload dictionary is not
modelled; claims only concern event types and ordering). -/
structure ContractEvent where
  event_type : String
  session_id : String
  message : String := ""
  timestamp : Nat := 0
deriving DecidableEq

/-- `ContractSession` model (the `report` dictionary cache is not modelled). -/
structure ContractSession where
  id : String
  state : LifecycleStage := .intake
  contract_text : String := ""
  contract_type : Option ContractType := none
  analysis : Option ContractAnalysis := none
  risk_assessments : List RiskAssessment := []
  negotiations : List NegotiationPosition := []
  approval_chain : List ApprovalDecision := []
  versions : List ContractVersion := []
  overall_risk : Option RiskLevel := none
  created_at : Nat := 0
  updated_at : Nat := 0
  error : Option String := none
deriving DecidableEq

/-! ## `tools/risk_tools.py` -/

/-- `_RISK_WEIGHTS` table. -/
def RISK_WEIGHTS : RiskLevel → Nat
  | .low => 1
  | .medium => 2
  | .high => 3
  | .critical => 4

/-- `_score_to_level`: map a numeric average score to a risk level
(thresholds 1.5, 2.2 and 3.0 written as exact rationals). -/
def score_to_level (score : ℚ) : RiskLevel :=
  if score ≤ mkRat 3 2 then .low
  else if score ≤ mkRat 11 5 then .medium
  else if score ≤ 3 then .high
  else .critical

/-- Python's builtin `max(a, b)` applied to two `RiskLevel` members: since
the enum subclasses `str`, the comparison is `str` comparison of the member
values (lexicographic on code points, here on the value's character list),
and `max` returns the second argument exactly when it compares strictly
greater. -/
def pyMaxRiskLevel (a b : RiskLevel) : RiskLevel :=
  if a.value.data < b.value.data then b else a

/-- `calculate_risk_matrix` from `risk_tools.py` (float division modelled
as exact rational division via `mkRat`). -/
def calculate_risk_matrix (assessments : List RiskAssessment) : RiskLevel :=
  if assessments.isEmpty then .low
  else
    let total_weight : Nat := (assessments.map (fun a => RISK_WEIGHTS a.risk_level)).sum
    let avg_score : ℚ := mkRat total_weight assessments.length
    let has_critical := assessments.any (fun a => a.risk_level = .critical)
    let has_high := assessments.any (fun a => a.risk_level = .high)
    if has_critical then pyMaxRiskLevel .high (score_to_level avg_score)
    else if has_high ∧ avg_score > 2 then .high
    else score_to_level avg_score

/-! ## `agents/approval_router.py` -/

/-- Position of a level in the router's `seniority_order` list
(`AUTO, MANAGER, VP, LEGAL, CFO`); used as the sort key. -/
def seniorityIndex : ApprovalLevel → Nat
  | .auto => 0
  | .manager => 1
  | .vp => 2
  | .legal => 3
  | .cfo => 4

/-- The sort relation used by `chain.sort(key=lambda level: seniority_order.index(level))`. -/
def seniorityLe (a b : ApprovalLevel) : Prop := seniorityIndex a ≤ seniorityIndex b

instance : DecidableRel seniorityLe := fun _ _ => Nat.decLe _ _

instance : IsTotal ApprovalLevel seniorityLe := ⟨fun _ _ => Nat.le_total _ _⟩

instance : IsTrans ApprovalLevel seniorityLe := ⟨fun _ _ _ => Nat.le_trans⟩

/-- Python's stable `list.sort` keyed by seniority index (any comparison
sort; with pairwise-distinct elements the result is uniquely determined). -/
def sortBySeniority (chain : List ApprovalLevel) : List ApprovalLevel :=
  List.insertionSort seniorityLe chain

/-- `if level not in chain: chain.append(level)` -/
def addIfMissing (chain : List ApprovalLevel) (level : ApprovalLevel) : List ApprovalLevel :=
  if level ∈ chain then chain else chain ++ [level]

/-- `_DEFAULT_APPROVERS` table. -/
def DEFAULT_APPROVERS : ApprovalLevel → String
  | .auto => "System (Auto-Approval)"
  | .manager => "Department Manager"
  | .vp => "VP of Operations"
  | .legal => "General Counsel"
  | .cfo => "Chief Financial Officer"

/-- Risk-based routing block of `determine_approval_chain`. -/
def riskBaseChain : RiskLevel → List ApprovalLevel
  | .low => [.auto]
  | .medium => [.manager]
  | .high => [.manager, .vp, .legal]
  | .critical => [.manager, .vp, .legal, .cfo]

/-- Value-based escalation block of `determine_approval_chain`
(`_VALUE_THRESHOLDS`: manager 50 000, vp 250 000, legal 500 000, cfo 1 000 000). -/
def valueEscalation (chain : List ApprovalLevel) (contract_value : ℚ) : List ApprovalLevel :=
  if contract_value ≥ 1000000 then
    [ApprovalLevel.manager, .vp, .legal, .cfo].foldl addIfMissing chain
  else if contract_value ≥ 500000 then
    [ApprovalLevel.manager, .vp, .legal].foldl addIfMissing chain
  else if contract_value ≥ 250000 then
    [ApprovalLevel.manager, .vp].foldl addIfMissing chain
  else if contract_value ≥ 50000 then
    addIfMissing chain .manager
  else chain

/-- Contract-type override block of `determine_approval_chain`. -/
def typeOverride (chain : List ApprovalLevel) (contract_type : ContractType) : List ApprovalLevel :=
  if contract_type = .employment then addIfMissing chain .legal
  else if contract_type = .licensing then addIfMissing chain .legal
  else chain

/-- `if len(chain) > 1 and AUTO in chain: chain.remove(AUTO)` -/
def autoPruned (chain : List ApprovalLevel) : List ApprovalLevel :=
  if 1 < chain.length ∧ ApprovalLevel.auto ∈ chain then chain.erase .auto else chain

/-- `ApprovalRouterAgent.determine_approval_chain`. -/
def determine_approval_chain (overall_risk : RiskLevel) (contract_value : ℚ)
    (contract_type : ContractType) : List ApprovalLevel :=
  sortBySeniority
    (autoPruned (typeOverride (valueEscalation (riskBaseChain overall_risk) contract_value)
      contract_type))

/-- `ApprovalRouterAgent.create_approval_decisions` (the member timestamps
default to the creation instant, passed here as `now`). -/
def create_approval_decisions (chain : List ApprovalLevel) (now : Nat) : List ApprovalDecision :=
  chain.map fun level =>
    { level := level, approver := DEFAULT_APPROVERS level, decision := "pending",
      comments := "", timestamp := now }

/-! ## `crews/approval_crew.py` -/

/-- `_validate_chain` rule: employment contracts always need legal review. -/
def complianceEmploymentRule (validated : List ApprovalLevel) (contract_type : ContractType) :
    List ApprovalLevel :=
  if contract_type = .employment then addIfMissing validated .legal else validated

/-- `_validate_chain` rule: high-value contracts need VP approval. -/
def complianceValueRule (validated : List ApprovalLevel) (contract_value : ℚ) :
    List ApprovalLevel :=
  if contract_value ≥ 250000 then addIfMissing validated .vp else validated

/-- `_validate_chain` rule: CRITICAL risk always needs CFO. -/
def complianceCriticalRule (validated : List ApprovalLevel) (risk_level : RiskLevel) :
    List ApprovalLevel :=
  if risk_level = .critical then addIfMissing validated .cfo else validated

/-- `_validate_chain` rule: cannot auto-approve non-LOW risk — replace AUTO
with MANAGER (append MANAGER only when missing). -/
def complianceAutoRule (validated : List ApprovalLevel) (risk_level : RiskLevel) :
    List ApprovalLevel :=
  if risk_level ≠ .low ∧ ApprovalLevel.auto ∈ validated then
    addIfMissing (validated.erase .auto) .manager
  else validated

/-- `ApprovalCrew._validate_chain` (the human-readable validation notes are
not modelled; only the returned chain is). -/
def validate_chain (chain : List ApprovalLevel) (risk_level : RiskLevel)
    (contract_value : ℚ) (contract_type : ContractType) : List ApprovalLevel :=
  sortBySeniority
    (complianceAutoRule
      (complianceCriticalRule
        (complianceValueRule (complianceEmploymentRule chain contract_type) contract_value)
        risk_level)
      risk_level)

/-- `ApprovalCrew.kickoff`: router proposes a chain, compliance validates it,
then pending `ApprovalDecision`s are created for the validated chain. -/
def approvalCrewKickoff (risk_level : RiskLevel) (contract_value : ℚ)
    (contract_type : ContractType) (now : Nat) : List ApprovalLevel × List ApprovalDecision :=
  let chain := determine_approval_chain risk_level contract_value contract_type
  let validated := validate_chain chain risk_level contract_value contract_type
  (validated, create_approval_decisions validated now)

/-- Python's `str.strip()`: the character list with leading and trailing
whitespace removed. -/
def pyStrip (s : String) : List Char :=
  ((s.data.dropWhile Char.isWhitespace).reverse.dropWhile Char.isWhitespace).reverse

/-- Python's `str.lower()` (ASCII case folding suffices for the
configuration strings compared here). -/
def pyLower (s : String) : String := ⟨s.data.map Char.toLower⟩

/-! ## `flow/conditions.py` -/

/-- `risk_level_check`: routing key from the aggregate risk level. -/
def risk_level_check (risk_level : RiskLevel) : String :=
  if risk_level = .low then "auto_approve"
  else if risk_level = .medium then "standard_review"
  else "full_negotiation"

/-- `approval_threshold`: whether the risk level qualifies for auto-approval
under the configured ceiling (unknown ceilings fall back to `{LOW}`). -/
def approval_threshold (risk_level : RiskLevel) (auto_approve_threshold : String) : Bool :=
  let t := pyLower auto_approve_threshold
  if t = "low" then risk_level == .low
  else if t = "medium" then risk_level == .low || risk_level == .medium
  else if t = "high" then
    risk_level == .low || risk_level == .medium || risk_level == .high
  else risk_level == .low

/-! ## `streaming.py` -/

/-- Canonical event type constants (the subset the claims mention). -/
def EVENT_COMPLETED : String := "completed"

def EVENT_ERROR : String := "error"

/-- `ContractEventStream` state: per-session subscriber queues (each queue a
FIFO list of `ContractEvent | None` messages, `none` being the close
sentinel) and the per-session append-only history. -/
structure ContractEventStream where
  queues : String → List (List (Option ContractEvent))
  max_queue_size : Nat
  history : String → List ContractEvent

/-- A fresh stream (`__init__`, default `max_queue_size = 256`). -/
def ContractEventStream.init : ContractEventStream :=
  { queues := fun _ => [], max_queue_size := 256, history := fun _ => [] }

/-- `ContractEventStream.emit`: construct the event, append it to the
session's history, and `put_nowait` it into every live subscriber queue of
the session, dropping the delivery when a queue is full. -/
def ContractEventStream.emit (st : ContractEventStream) (session_id event_type message : String)
    (now : Nat) : ContractEventStream × ContractEvent :=
  let event : ContractEvent :=
    { event_type := event_type, session_id := session_id, message := message, timestamp := now }
  ({ st with
      history := fun s => if s = session_id then st.history s ++ [event] else st.history s,
      queues := fun s =>
        if s = session_id then
          (st.queues s).map fun q =>
            if q.length < st.max_queue_size then q ++ [some event] else q
        else st.queues s },
    event)

/-- The registration step of `ContractEventStream.subscribe`: a fresh empty
bounded queue is appended to the session's subscriber list.  Returns the
updated stream and the index of the new queue. -/
def ContractEventStream.subscribeRegister (st : ContractEventStream) (session_id : String) :
    ContractEventStream × Nat :=
  ({ st with
      queues := fun s => if s = session_id then st.queues s ++ [[]] else st.queues s },
    (st.queues session_id).length)

/-- The live loop of `subscribe`: `await queue.get()` repeatedly; a `none`
sentinel breaks the loop; an event is yielded and then the loop breaks when
its type is `completed`/`error`.  Given the sequence of messages placed in
the queue, returns the events yielded from the queue and whether the loop
has exited (`false` means the subscriber is still blocked on `queue.get`). -/
def consumeLive : List (Option ContractEvent) → List ContractEvent × Bool
  | [] => ([], false)
  | none :: _ => ([], true)
  | some e :: rest =>
    if e.event_type = EVENT_COMPLETED ∨ e.event_type = EVENT_ERROR then ([e], true)
    else
      let r := consumeLive rest
      (e :: r.1, r.2)

/-- Everything a subscriber yields: first the full history replay (no
terminal-type check there), then what the live loop yields from its queue. -/
def subscriberEvents (historyAtJoin : List ContractEvent)
    (queueMsgs : List (Option ContractEvent)) : List ContractEvent :=
  historyAtJoin ++ (consumeLive queueMsgs).1

/-- Whether the subscriber's iteration has terminated, given the messages
placed in its queue. -/
def subscriberTerminated (queueMsgs : List (Option ContractEvent)) : Bool :=
  (consumeLive queueMsgs).2

/-- `ContractEventStream.close`: `put_nowait(None)` into each live queue of
the session (dropped when full), then drop the session's subscriber list.
Returns the new stream state together with the final message sequences the
existing subscribers will drain. -/
def ContractEventStream.close (st : ContractEventStream) (session_id : String) :
    ContractEventStream × List (List (Option ContractEvent)) :=
  let delivered :=
    (st.queues session_id).map fun q =>
      if q.length < st.max_queue_size then q ++ [none] else q
  ({ st with queues := fun s => if s = session_id then [] else st.queues s }, delivered)

/-- Emit a batch of `(event_type, message)` pairs for one session, with
consecutive timestamps starting at `now`. -/
def emitSeq (st : ContractEventStream) (session_id : String) :
    List (String × String) → Nat → ContractEventStream
  | [], _ => st
  | tm :: rest, now =>
    emitSeq (st.emit session_id tm.1 tm.2 now).1 session_id rest (now + 1)

/-- The events `emitSeq` constructs. -/
def mkEvents (session_id : String) : List (String × String) → Nat → List ContractEvent
  | [], _ => []
  | tm :: rest, now =>
    { event_type := tm.1, session_id := session_id, message := tm.2, timestamp := now }
      :: mkEvents session_id rest (now + 1)

/-! ## `api.py` -/

/-- `ApproveRequest` body (both fields default to `""`). -/
structure ApproveRequest where
  approver : String := ""
  comments : String := ""
deriving DecidableEq

/-- `RejectRequest` body (`comments` has `min_length=1`, checked upstream). -/
structure RejectRequest where
  approver : String := ""
  comments : String
deriving DecidableEq

/-- `RenegotiateRequest` body: the `counter_terms` dict (insertion-ordered)
as an association list, plus free comments. -/
structure RenegotiateRequest where
  counter_terms : List (String × String) := []
  comments : String := ""
deriving DecidableEq

/-- The 4xx failures the approval endpoints raise via `HTTPException`:
a wrong-stage call or an exhausted approval chain (both status 400). -/
inductive ApiError where
  | invalidState
  | noPendingApprovals
deriving DecidableEq

/-- `SessionManager.create_session`. -/
def create_session (session_id contract_text : String) (now : Nat) : ContractSession :=
  { id := session_id, state := .intake, contract_text := contract_text,
    created_at := now, updated_at := now }

/-- The request validation FastAPI performs on `ContractSubmitRequest`
before the handler runs: `contract_text` has `min_length=50`. -/
def contractSubmitRequestValid (contract_text : String) : Bool :=
  50 ≤ contract_text.length

/-- `POST /api/v1/contracts` up to session creation: a body failing model
validation is rejected with 422 and no session is created; otherwise a
fresh Intake session is stored and the lifecycle flow task is started. -/
def submit_contract (contract_text : String) (session_id : String) (now : Nat) :
    Except Nat ContractSession :=
  if contractSubmitRequestValid contract_text then
    .ok (create_session session_id contract_text now)
  else .error 422

/-- The approval-marking loop in `approve_contract`: mark the first
`pending` decision approved with the supplied approver/comments/timestamp;
`none` when no decision is pending. -/
def approveFirstPending (req : ApproveRequest) (now : Nat) :
    List ApprovalDecision → Option (List ApprovalDecision)
  | [] => none
  | d :: rest =>
    if d.decision = "pending" then
      let marked : ApprovalDecision :=
        { d with decision := "approved",
                 approver := if req.approver = "" then d.approver else req.approver,
                 comments := req.comments, timestamp := now }
      some (marked :: rest)
    else (approveFirstPending req now rest).map fun r => d :: r

/-- `POST /contracts/{id}/approve` (`approve_contract`): the handler either
raises a 400 before mutating anything, or returns the mutated session. -/
def approve_contract (session : ContractSession) (req : ApproveRequest) (now : Nat) :
    ContractSession × Option ApiError :=
  if session.state ≠ .awaiting_approval then (session, some .invalidState)
  else
    match approveFirstPending req now session.approval_chain with
    | none => (session, some .noPendingApprovals)
    | some chain1 =>
      let all_approved := chain1.all fun d => d.decision == "approved"
      ({ session with
          approval_chain := chain1,
          state := if all_approved then .approved else session.state,
          updated_at := now },
        none)

/-- The rejection-marking loop in `reject_contract`: mark the first
`pending` decision rejected (no error when none is pending). -/
def rejectFirstPending (req : RejectRequest) (now : Nat) :
    List ApprovalDecision → List ApprovalDecision
  | [] => []
  | d :: rest =>
    if d.decision = "pending" then
      let marked : ApprovalDecision :=
        { d with decision := "rejected",
                 approver := if req.approver = "" then d.approver else req.approver,
                 comments := req.comments, timestamp := now }
      marked :: rest
    else d :: rejectFirstPending req now rest

/-- `POST /contracts/{id}/reject` (`reject_contract`). -/
def reject_contract (session : ContractSession) (req : RejectRequest) (now : Nat) :
    ContractSession × Option ApiError :=
  if session.state ≠ .awaiting_approval then (session, some .invalidState)
  else
    ({ session with
        state := .rejected,
        approval_chain := rejectFirstPending req now session.approval_chain,
        updated_at := now },
      none)

/-- `POST /contracts/{id}/renegotiate` (`renegotiate_contract`): records a
new version (counter-term summaries truncated at 100 characters plus an
optional notes line), resets every chain decision to pending with cleared
comments, and moves the session back to AwaitingApproval. -/
def renegotiate_contract (session : ContractSession) (req : RenegotiateRequest) (now : Nat) :
    ContractSession × Option ApiError :=
  if session.state = .awaiting_approval ∨ session.state = .rejected ∨
      session.state = .negotiating then
    let changes :=
      (req.counter_terms.map fun ct =>
        "Counter-terms submitted for clause " ++ ct.1 ++ ": " ++ ct.2.take 100) ++
      (if req.comments = "" then [] else ["Notes: " ++ req.comments])
    ({ session with
        state := .awaiting_approval,
        updated_at := now,
        versions := session.versions ++
          [{ version := session.versions.length + 1, changes := changes, timestamp := now }],
        approval_chain :=
          session.approval_chain.map fun d => { d with decision := "pending", comments := "" } },
      none)
  else (session, some .invalidState)

/-- `POST /contracts/{id}/execute` (`execute_contract`). -/
def execute_contract (session : ContractSession) (now : Nat) :
    ContractSession × Option ApiError :=
  if session.state ≠ .approved then (session, some .invalidState)
  else
    ({ session with
        state := .executed,
        updated_at := now,
        versions := session.versions ++
          [{ version := session.versions.length + 1, changes := ["Contract executed"],
             timestamp := now }] },
      none)

/-! ## `flow/lifecycle_flow.py`

The lifecycle flow, with the crew collaborators (analysis, negotiation,
approval) passing their results through explicit arguments.  Each step
returns the new flow state together with the types of the events it emits;
`flowRun` is the `run` orchestration (its `try`/`except` materialises as the
`Except` produced by the intake validation, the only raising step in this
embedding). -/

/-- `config.py` settings consumed by the flow. -/
structure Settings where
  auto_approve_threshold : String := "low"
  max_negotiation_rounds : Nat := 3
deriving DecidableEq

/-- `ContractFlowState` from `flow/state.py`. -/
structure ContractFlowState where
  session_id : String := ""
  contract_text : String := ""
  stage : LifecycleStage := .intake
  analysis : Option ContractAnalysis := none
  risks : List RiskAssessment := []
  negotiations : List NegotiationPosition := []
  approval_chain : List ApprovalDecision := []
  current_approval_index : Nat := 0
  overall_risk : Option RiskLevel := none
  versions : List ContractVersion := []
  error : Option String := none
deriving DecidableEq

/-- `_intake`: emit `intake`, validate the text length (raising `ValueError`
on fewer than 50 stripped characters), then record Version 1. -/
def intakeStep (state : ContractFlowState) :
    List String × Except String ContractFlowState :=
  let state := { state with stage := .intake }
  let events := ["intake"]
  if state.contract_text.isEmpty = true ∨ (pyStrip state.contract_text).length < 50 then
    (events, .error "Contract text is too short. Minimum 50 characters required.")
  else
    (events,
      .ok { state with
              versions := state.versions ++
                [{ version := 1, changes := ["Initial contract submission"] }] })

/-- `_analyze`: run the analysis crew (its result passed in) and store the
analysis and the combined risk list. -/
def analyzeStep (state : ContractFlowState) (analysis : ContractAnalysis)
    (all_risks : List RiskAssessment) : ContractFlowState × List String :=
  ({ state with stage := .analyzing, analysis := some analysis, risks := all_risks },
    ["analyzing", "extracting_clauses", "clauses_extracted", "analysis_complete"])

/-- `_assess_risk`: aggregate the clause assessments through
`calculate_risk_matrix`. -/
def assessRiskStep (state : ContractFlowState) : ContractFlowState × List String :=
  let state1 :=
    { state with stage := .risk_assessing,
                 overall_risk := some (calculate_risk_matrix state.risks) }
  (state1, ["risk_assessing", "risk_assessment_done"])

/-- `_auto_approve`: synthesize a single already-approved AUTO decision. -/
def autoApproveStep (state : ContractFlowState) : ContractFlowState × List String :=
  let riskText := (state.overall_risk.map RiskLevel.value).getD "low"
  let autoDecision : ApprovalDecision :=
    { level := .auto, approver := "System (Auto-Approval)", decision := "approved",
      comments := "Contract auto-approved. Overall risk: " ++ riskText ++
        ". Risk level meets auto-approval threshold." }
  let state1 := { state with stage := .approved, approval_chain := [autoDecision] }
  (state1, ["approved"])

/-- `_standard_review`: run the approval crew and wait for human approval. -/
def standardReviewStep (state : ContractFlowState) : ContractFlowState × List String :=
  let contract_value := (state.analysis.map ContractAnalysis.total_value).getD 0
  let contract_type := (state.analysis.map ContractAnalysis.contract_type).getD .consulting
  let kick := approvalCrewKickoff (state.overall_risk.getD .medium) contract_value
    contract_type 0
  ({ state with approval_chain := kick.2, stage := .awaiting_approval },
    ["routing_approval", "awaiting_approval"])

/-- `_negotiate`: store the negotiation crew's positions and record a
version listing them. -/
def negotiateStep (state : ContractFlowState) (positions : List NegotiationPosition) :
    ContractFlowState × List String :=
  let state := { state with stage := .negotiating, negotiations := positions }
  let newVersion : ContractVersion :=
    { version := state.versions.length + 1,
      changes := positions.map fun p =>
        "Negotiation position developed for clause " ++ p.clause_id }
  let state1 := { state with versions := state.versions ++ [newVersion] }
  (state1, ["negotiating", "negotiation_strategy_ready"])

/-- `_multi_level_approval`: run the approval crew for the multi-level
chain and wait for human approval. -/
def multiLevelApprovalStep (state : ContractFlowState) : ContractFlowState × List String :=
  let contract_value := (state.analysis.map ContractAnalysis.total_value).getD 0
  let contract_type := (state.analysis.map ContractAnalysis.contract_type).getD .consulting
  let kick := approvalCrewKickoff (state.overall_risk.getD .high) contract_value
    contract_type 0
  let state1 :=
    { state with approval_chain := kick.2, current_approval_index := 0,
                 stage := .awaiting_approval }
  (state1, ["routing_approval", "awaiting_approval"])

/-- `_execute`: mark the contract executed and record the final version. -/
def executeStep (state : ContractFlowState) : ContractFlowState × List String :=
  let state := { state with stage := .executed }
  let newVersion : ContractVersion :=
    { version := state.versions.length + 1,
      changes := ["Contract executed after all approvals received"] }
  let state1 := { state with versions := state.versions ++ [newVersion] }
  (state1, ["executed"])

/-- `ContractLifecycleFlow.run`: the full orchestration, returning the final
flow state and the emitted event types in order. -/
def flowRun (contract_text session_id : String) (analysis : ContractAnalysis)
    (all_risks : List RiskAssessment) (positions : List NegotiationPosition)
    (settings : Settings) : ContractFlowState × List String :=
  let state0 : ContractFlowState := { session_id := session_id, contract_text := contract_text }
  match intakeStep state0 with
  | (ev0, .error msg) =>
    ({ state0 with error := some msg, stage := .failed }, ev0 ++ ["error"])
  | (ev0, .ok s1) =>
    let a := analyzeStep s1 analysis all_risks
    let b := assessRiskStep a.1
    let route := risk_level_check (b.1.overall_risk.getD .low)
    let c :=
      if route = "auto_approve" then
        if approval_threshold (b.1.overall_risk.getD .low) settings.auto_approve_threshold then
          autoApproveStep b.1
        else standardReviewStep b.1
      else if route = "standard_review" then standardReviewStep b.1
      else
        let n := negotiateStep b.1 positions
        let m := multiLevelApprovalStep n.1
        (m.1, n.2 ++ m.2)
    let d :=
      if c.1.stage = .approved ∨ c.1.stage = .awaiting_approval then executeStep c.1
      else (c.1, [])
    (d.1, ev0 ++ a.2 ++ b.2 ++ c.2 ++ d.2 ++ ["completed"])

/-! ## Derived notions and concrete sample inputs used by the theorems -/

/-- Every decision in the chain is either already approved or still pending
(the configuration the C4 scenario quantifies over). -/
def approvedOrPending (chain : List ApprovalDecision) : Prop :=
  ∀ d ∈ chain, d.decision = "approved" ∨ d.decision = "pending"

instance (chain : List ApprovalDecision) : Decidable (approvedOrPending chain) :=
  List.decidableBAll _ chain

/-- Number of pending decisions in a chain. -/
def countPending (chain : List ApprovalDecision) : Nat :=
  (chain.filter fun d => d.decision == "pending").length

/-- `k` successive calls of the approve endpoint on a session (each call's
result session feeds the next call). -/
def approveIter (req : ApproveRequest) (now : Nat) : Nat → ContractSession → ContractSession
  | 0, s => s
  | k + 1, s => approveIter req now k (approve_contract s req now).1

/-- A one-clause assessment at the given severity. -/
def sampleAssessment (r : RiskLevel) : RiskAssessment :=
  { clause_id := "c-1", risk_level := r, description := "d", recommendation := "r" }

/-- Nine findings whose mean together with one more High finding is 2.1. -/
def riskTailAssessments : List RiskAssessment :=
  [sampleAssessment .high, sampleAssessment .high,
   sampleAssessment .medium, sampleAssessment .medium, sampleAssessment .medium,
   sampleAssessment .medium, sampleAssessment .medium,
   sampleAssessment .low, sampleAssessment .low]

/-- A contract text comfortably above the 50-character intake minimum. -/
def sampleContractText : String :=
  "This Master Services Agreement is entered into by Client and Provider for services."

/-- An analysis-crew result: a SaaS agreement worth 250 000. -/
def sampleAnalysis : ContractAnalysis :=
  { contract_type := .saas_agreement, total_value := 250000 }

/-- An AwaitingApproval session whose two-step chain is entirely pending. -/
def sampleAwaitingSession : ContractSession :=
  { id := "s-1", state := .awaiting_approval,
    approval_chain :=
      [{ level := .manager, approver := "Department Manager", decision := "pending" },
       { level := .vp, approver := "VP of Operations", decision := "pending" }],
    versions := [{ version := 1, changes := ["Initial contract submission"] }] }

/-- A freshly created Intake-stage session. -/
def sampleIntakeSession : ContractSession :=
  { id := "s-2", state := .intake, contract_text := "text", created_at := 1, updated_at := 1 }

/-- An approve-request body. -/
def sampleApproveRequest : ApproveRequest :=
  { approver := "manager at techcorp", comments := "Looks good" }

/-! ## Theorems -/

/-- C1: evaluation of `calculate_risk_matrix` at the failing inputs.  The
claim (and the function's own docstring) promises that with any Critical
finding the result is `max(baseline, High)` in severity order, hence at
least High.  Because `RiskLevel` subclasses `str`, Python's `max` compares
the member strings (`"critical" < "high" < "low" < "medium"`), so six
findings `[Critical, Low, Low, Low, Low, Low]` (mean 1.5, baseline Low)
aggregate to Low — below High — and a single `[Critical]` (baseline
Critical) aggregates to High instead of the severity-maximum Critical. -/
theorem calculate_risk_matrix_critical_escalation_broken :
    calculate_risk_matrix
        (sampleAssessment .critical :: List.replicate 5 (sampleAssessment .low)) =
      RiskLevel.low ∧
    calculate_risk_matrix [sampleAssessment .critical] = RiskLevel.high := by
  decide

/-- C3: evaluation of `calculate_risk_matrix` at a failing pair.  Raising
the first finding of `[High, High, High, Medium ×5, Low, Low]` (mean 2.1,
aggregate High via the has-High ∧ mean > 2 rule) by one level to Critical
gives mean 2.2, baseline Medium, and the lexicographic `max("high", ...)`
returns Medium — the aggregate decreases from High to Medium, refuting
monotonicity. -/
theorem calculate_risk_matrix_not_monotone :
    calculate_risk_matrix (sampleAssessment .high :: riskTailAssessments) = RiskLevel.high ∧
    calculate_risk_matrix (sampleAssessment .critical :: riskTailAssessments) =
      RiskLevel.medium := by
  decide

/-- C2: evaluation of the lifecycle run on a Medium-risk contract.  The
routing ends in `_standard_review`, which leaves the state AwaitingApproval
with a fully pending two-level chain — yet `run` then enters `_execute`
(its guard accepts AwaitingApproval as well as Approved) and the session
finishes Executed with every chain decision still `"pending"`, never having
been approved by anyone. -/
theorem flow_run_executes_awaiting_approval_session :
    (flowRun sampleContractText "session-c2" sampleAnalysis [sampleAssessment .medium] []
        {}).1.stage = LifecycleStage.executed ∧
    ((flowRun sampleContractText "session-c2" sampleAnalysis [sampleAssessment .medium] []
        {}).1.approval_chain.map ApprovalDecision.decision) = ["pending", "pending"] := by
  decide

/-- C7: calling the reject endpoint on a session whose stage is not
AwaitingApproval returns the 400 `InvalidState` failure and the session
value completely unchanged (the handler raises before any mutation), so the
stage, the approval chain, and `updated_at` keep their prior values. -/
theorem reject_contract_wrong_stage_unchanged (s : ContractSession) (req : RejectRequest)
    (now : Nat) (h : s.state ≠ .awaiting_approval) :
    reject_contract s req now = (s, some .invalidState) := by
  simp [reject_contract, h]

/-- Witness for C7: rejecting a fresh Intake-stage session. -/
theorem reject_contract_wrong_stage_unchanged_witness :
    sampleIntakeSession.state ≠ LifecycleStage.awaiting_approval ∧
    reject_contract sampleIntakeSession { comments := "no" } 3 =
      (sampleIntakeSession, some .invalidState) :=
  ⟨by decide,
    reject_contract_wrong_stage_unchanged sampleIntakeSession { comments := "no" } 3
      (by decide)⟩

/-- C9 counterexample: submitting a contract whose text has length 10 is
rejected by the request model's `min_length=50` validation with 422 before
any session exists — it does not produce a Failed session. -/
theorem submit_length_ten_rejected_no_session :
    ("0123456789" : String).length = 10 ∧
    submit_contract "0123456789" "session-c9" 0 = Except.error 422 :=
  ⟨rfl, rfl⟩

/-- C9 (amended): a submission with text shorter than 50 characters fails
request validation with 422 and creates no session; the lifecycle flow
itself, were it run on such text, ends with stage Failed, a non-null error,
and exactly an `intake` followed by an `error` event. -/
theorem short_contract_text_surfaced (text sid : String) (now : Nat)
    (analysis : ContractAnalysis) (risks : List RiskAssessment)
    (positions : List NegotiationPosition) (settings : Settings)
    (hlen : text.length < 50) (hstrip : (pyStrip text).length < 50) :
    submit_contract text sid now = Except.error 422 ∧
    (flowRun text sid analysis risks positions settings).1.stage = .failed ∧
    (flowRun text sid analysis risks positions settings).1.error ≠ none ∧
    (flowRun text sid analysis risks positions settings).2 = ["intake", "error"] := by
  refine ⟨?_, ?_⟩
  · simp [submit_contract, contractSubmitRequestValid, Nat.not_le.2 hlen]
  · have hcond : (text.isEmpty = true ∨ (pyStrip text).length < 50) := Or.inr hstrip
    simp [flowRun, intakeStep, hcond]

/-- Witness for C9 (amended): the 10-character submission. -/
theorem short_contract_text_surfaced_witness :
    ("0123456789" : String).length < 50 ∧
    submit_contract "0123456789" "w9" 1 = Except.error 422 ∧
    (flowRun "0123456789" "w9" sampleAnalysis [] [] {}).1.stage = .failed :=
  ⟨by decide,
    (short_contract_text_surfaced "0123456789" "w9" 1 sampleAnalysis [] [] {}
      (by decide) (by decide)).1,
    (short_contract_text_surfaced "0123456789" "w9" 1 sampleAnalysis [] [] {}
      (by decide) (by decide)).2.1⟩

/-- C5: from AwaitingApproval, Rejected or Negotiating, renegotiation
succeeds, resets every chain step to pending with cleared comments, appends
exactly one new version numbered `old count + 1`, and lands the session in
AwaitingApproval; from any other stage it fails with the 400 `InvalidState`
and changes nothing. -/
theorem renegotiate_contract_resets_chain_and_bumps_version :
    (∀ (s : ContractSession) (req : RenegotiateRequest) (now : Nat),
      ¬(s.state = .awaiting_approval ∨ s.state = .rejected ∨ s.state = .negotiating) →
        renegotiate_contract s req now = (s, some .invalidState)) ∧
    ∀ (s : ContractSession) (req : RenegotiateRequest) (now : Nat),
      (s.state = .awaiting_approval ∨ s.state = .rejected ∨ s.state = .negotiating) →
        (renegotiate_contract s req now).2 = none ∧
        (renegotiate_contract s req now).1.state = .awaiting_approval ∧
        (renegotiate_contract s req now).1.approval_chain =
          (s.approval_chain.map fun d => { d with decision := "pending", comments := "" }) ∧
        (renegotiate_contract s req now).1.versions.length = s.versions.length + 1 ∧
        (renegotiate_contract s req now).1.versions.map ContractVersion.version =
          s.versions.map ContractVersion.version ++ [s.versions.length + 1] := by
  constructor
  · intro s req now h
    simp [renegotiate_contract, h]
  · intro s req now h
    simp [renegotiate_contract, h]

/-- Witness for C5: renegotiating a Rejected session with a pending +
rejected chain. -/
theorem renegotiate_contract_resets_witness :
    ((sampleAwaitingSession.state = LifecycleStage.awaiting_approval ∨
        sampleAwaitingSession.state = .rejected ∨
        sampleAwaitingSession.state = .negotiating) ∧
      (renegotiate_contract sampleAwaitingSession { comments := "redo" } 7).1.versions.length =
        sampleAwaitingSession.versions.length + 1) ∧
    (renegotiate_contract sampleAwaitingSession { comments := "redo" } 7).1.state =
      LifecycleStage.awaiting_approval :=
  ⟨⟨Or.inl rfl,
      ((renegotiate_contract_resets_chain_and_bumps_version).2 sampleAwaitingSession
        { comments := "redo" } 7 (Or.inl rfl)).2.2.2.1⟩,
    ((renegotiate_contract_resets_chain_and_bumps_version).2 sampleAwaitingSession
      { comments := "redo" } 7 (Or.inl rfl)).2.1⟩

theorem countPending_cons (d : ApprovalDecision) (rest : List ApprovalDecision) :
    countPending (d :: rest) =
      (if d.decision = "pending" then 1 else 0) + countPending rest := by
  by_cases h : d.decision = "pending" <;>
    simp [countPending, List.filter_cons, h, Nat.add_comm]

theorem approvedOrPending_cons {d : ApprovalDecision} {rest : List ApprovalDecision}
    (h : approvedOrPending (d :: rest)) : approvedOrPending rest :=
  fun x hx => h x (List.mem_cons_of_mem d hx)

theorem approveFirstPending_eq_none (req : ApproveRequest) (now : Nat) :
    ∀ chain : List ApprovalDecision, countPending chain = 0 →
      approveFirstPending req now chain = none := by
  intro chain
  induction chain with
  | nil => intro _; rfl
  | cons d rest ih =>
    intro h
    rw [countPending_cons] at h
    have hd : ¬d.decision = "pending" := by
      intro hp
      rw [if_pos hp] at h
      omega
    rw [approveFirstPending, if_neg hd, ih (by omega)]
    rfl

theorem all_approved_iff_no_pending :
    ∀ chain : List ApprovalDecision, approvedOrPending chain →
      ((chain.all fun d => d.decision == "approved") = true ↔ countPending chain = 0) := by
  intro chain
  induction chain with
  | nil => intro _; simp [countPending]
  | cons d rest ih =>
    intro h
    have hrest := approvedOrPending_cons h
    rcases h d (List.mem_cons_self d rest) with hda | hdp
    · have : ¬d.decision = "pending" := by rw [hda]; decide
      simp [List.all_cons, hda, countPending_cons, this, ih hrest]
    · have : ¬d.decision = "approved" := by rw [hdp]; decide
      simp [List.all_cons, hdp, countPending_cons, this]

theorem approveFirstPending_spec (req : ApproveRequest) (now : Nat) :
    ∀ (chain : List ApprovalDecision) (n : Nat), approvedOrPending chain →
      countPending chain = n + 1 →
      ∃ c1, approveFirstPending req now chain = some c1 ∧ approvedOrPending c1 ∧
        countPending c1 = n := by
  intro chain
  induction chain with
  | nil => intro n _ h; simp [countPending] at h
  | cons d rest ih =>
    intro n h hc
    have hrest := approvedOrPending_cons h
    rw [countPending_cons] at hc
    by_cases hd : d.decision = "pending"
    · rw [if_pos hd] at hc
      refine ⟨{ d with decision := "approved", approver := if req.approver = "" then d.approver else req.approver, comments := req.comments, timestamp := now } :: rest, ?_, ?_, ?_⟩
      · rw [approveFirstPending, if_pos hd]
      · intro x hx
        rcases List.mem_cons.mp hx with hx1 | hx2
        · subst hx1; exact Or.inl rfl
        · exact hrest x hx2
      · rw [countPending_cons]
        rw [if_neg (show ¬("approved" : String) = "pending" by decide)]
        omega
    · rw [if_neg hd] at hc
      obtain ⟨c1, hafp, hop1, hc1⟩ := ih n hrest (by omega)
      refine ⟨d :: c1, ?_, ?_, ?_⟩
      · rw [approveFirstPending, if_neg hd, hafp]; rfl
      · intro x hx
        rcases List.mem_cons.mp hx with hx1 | hx2
        · rw [hx1]; exact h d (List.mem_cons_self d rest)
        · exact hop1 x hx2
      · rw [countPending_cons, if_neg hd, hc1]; omega

theorem approve_contract_step (s : ContractSession) (req : ApproveRequest) (now : Nat) (n : Nat)
    (hst : s.state = .awaiting_approval) (hop : approvedOrPending s.approval_chain)
    (hc : countPending s.approval_chain = n + 1) :
    (approve_contract s req now).2 = none ∧
    approvedOrPending (approve_contract s req now).1.approval_chain ∧
    countPending (approve_contract s req now).1.approval_chain = n ∧
    (approve_contract s req now).1.state =
      (if n = 0 then .approved else .awaiting_approval) := by
  obtain ⟨c1, hafp, hop1, hc1⟩ := approveFirstPending_spec req now s.approval_chain n hop hc
  have hns : ¬s.state ≠ .awaiting_approval := by simp [hst]
  have hall := all_approved_iff_no_pending c1 hop1
  by_cases hn : n = 0
  · have hT : (c1.all fun d => d.decision == "approved") = true := hall.mpr (by omega)
    simp [approve_contract, if_neg hns, hafp, hT, hn, hc1, hop1]
  · have hF : ¬(c1.all fun d => d.decision == "approved") = true := by
      rw [hall]; omega
    simp [approve_contract, if_neg hns, hafp, hF, hn, hc1, hop1, hst]

theorem approveIter_spec (req : ApproveRequest) (now : Nat) :
    ∀ (k n : Nat) (s : ContractSession), s.state = .awaiting_approval →
      approvedOrPending s.approval_chain → countPending s.approval_chain = n → k ≤ n →
      approvedOrPending (approveIter req now k s).approval_chain ∧
      countPending (approveIter req now k s).approval_chain = n - k ∧
      (approveIter req now k s).state =
        (if k = n ∧ 0 < n then .approved else .awaiting_approval) := by
  intro k
  induction k with
  | zero =>
    intro n s hst hop hc _
    refine ⟨hop, by simpa using hc, ?_⟩
    rcases Nat.eq_zero_or_pos n with h0 | hpos
    · subst h0; simpa [approveIter] using hst
    · have hcond : ¬(0 = n ∧ 0 < n) := by omega
      simpa [approveIter, hcond] using hst
  | succ k ih =>
    intro n s hst hop hc hk
    obtain ⟨m, rfl⟩ : ∃ m, n = m + 1 := ⟨n - 1, by omega⟩
    have hstep := approve_contract_step s req now m hst hop hc
    have hiter : approveIter req now (k + 1) s =
        approveIter req now k (approve_contract s req now).1 := rfl
    by_cases hm : m = 0
    · have hk0 : k = 0 := by omega
      subst hk0; subst hm
      have hstate : (approve_contract s req now).1.state = .approved := by
        simpa using hstep.2.2.2
      refine ⟨?_, ?_, ?_⟩
      · simpa [hiter, approveIter] using hstep.2.1
      · simpa [hiter, approveIter] using hstep.2.2.1
      · simpa [hiter, approveIter] using hstate
    · have hs1st : (approve_contract s req now).1.state = .awaiting_approval := by
        simpa [if_neg hm] using hstep.2.2.2
      have hrec := ih m (approve_contract s req now).1 hs1st hstep.2.1 hstep.2.2.1 (by omega)
      refine ⟨?_, ?_, ?_⟩
      · simpa [hiter] using hrec.1
      · have : m - k = m + 1 - (k + 1) := by omega
        rw [hiter, hrec.2.1, this]
      · rw [hiter, hrec.2.2]
        have : (k = m ∧ 0 < m) ↔ (k + 1 = m + 1 ∧ 0 < m + 1) := by omega
        by_cases hkm : k = m ∧ 0 < m
        · rw [if_pos hkm, if_pos (this.mp hkm)]
        · rw [if_neg hkm, if_neg (fun hc2 => hkm (this.mpr hc2))]

/-- C4: on an AwaitingApproval session whose chain steps are all approved
or pending with `N` of them pending, each approve call succeeds and marks
exactly one pending step approved, the stage stays AwaitingApproval after
every call before the `N`-th, and becomes Approved exactly after the
`N`-th; approve fails with 400 `InvalidState` when the stage is not
AwaitingApproval, and with 400 when no step is pending. -/
theorem approve_contract_sequence :
    (∀ (s : ContractSession) (req : ApproveRequest) (now : Nat),
        s.state ≠ .awaiting_approval → approve_contract s req now = (s, some .invalidState)) ∧
    (∀ (s : ContractSession) (req : ApproveRequest) (now : Nat),
        s.state = .awaiting_approval → countPending s.approval_chain = 0 →
        approve_contract s req now = (s, some .noPendingApprovals)) ∧
    ∀ (s : ContractSession) (req : ApproveRequest) (now : Nat) (N : Nat),
      s.state = .awaiting_approval → approvedOrPending s.approval_chain →
      countPending s.approval_chain = N →
      (∀ k, k < N →
        (approveIter req now k s).state = .awaiting_approval ∧
        countPending (approveIter req now k s).approval_chain = N - k) ∧
      (1 ≤ N → (approveIter req now N s).state = .approved) := by
  refine ⟨?_, ?_, ?_⟩
  · intro s req now h
    simp [approve_contract, h]
  · intro s req now hst h0
    have hns : ¬s.state ≠ .awaiting_approval := by simp [hst]
    simp [approve_contract, if_neg hns, approveFirstPending_eq_none req now _ h0]
  · intro s req now N hst hop hc
    constructor
    · intro k hk
      have h := approveIter_spec req now k N s hst hop hc (by omega)
      have hcond : ¬(k = N ∧ 0 < N) := by omega
      exact ⟨by rw [h.2.2, if_neg hcond], h.2.1⟩
    · intro hN
      have h := approveIter_spec req now N N s hst hop hc (by omega)
      have hcond : (N = N ∧ 0 < N) := by omega
      rw [h.2.2, if_pos hcond]

/-- Witness for C4: a two-step fully pending chain needs exactly two
approve calls. -/
theorem approve_contract_sequence_witness :
    (approveIter sampleApproveRequest 5 1 sampleAwaitingSession).state =
        LifecycleStage.awaiting_approval ∧
    (approveIter sampleApproveRequest 5 2 sampleAwaitingSession).state =
        LifecycleStage.approved ∧
    approve_contract sampleIntakeSession sampleApproveRequest 5 =
      (sampleIntakeSession, some .invalidState) := by
  have h := approve_contract_sequence.2.2 sampleAwaitingSession sampleApproveRequest 5 2
    rfl (by decide) (by decide)
  exact ⟨(h.1 1 (by decide)).1, h.2 (by decide),
    approve_contract_sequence.1 sampleIntakeSession sampleApproveRequest 5 (by decide)⟩

theorem seniorityIndex_inj : ∀ a b : ApprovalLevel, seniorityIndex a = seniorityIndex b → a = b := by
  intro a b h
  cases a <;> cases b <;> simp_all [seniorityIndex]

theorem pairwise_lt_of_sorted_nodup :
    ∀ l : List ApprovalLevel, l.Pairwise seniorityLe → l.Nodup →
      l.Pairwise fun a b => seniorityIndex a < seniorityIndex b := by
  intro l
  induction l with
  | nil => intro _ _; exact List.Pairwise.nil
  | cons a t ih =>
    intro hs hn
    rcases List.pairwise_cons.mp hs with ⟨ha, ht⟩
    rcases List.nodup_cons.mp hn with ⟨hna, hnt⟩
    refine List.pairwise_cons.mpr ⟨?_, ih ht hnt⟩
    intro b hb
    have hle : seniorityIndex a ≤ seniorityIndex b := ha b hb
    have hne : seniorityIndex a ≠ seniorityIndex b := by
      intro he
      exact hna (seniorityIndex_inj a b he ▸ hb)
    omega

theorem nodup_addIfMissing (l : List ApprovalLevel) (x : ApprovalLevel) (h : l.Nodup) :
    (addIfMissing l x).Nodup := by
  unfold addIfMissing
  split
  · exact h
  · next hx => exact h.append (List.nodup_singleton x) (List.disjoint_singleton.2 hx)

theorem nodup_foldl_addIfMissing (xs : List ApprovalLevel) :
    ∀ l : List ApprovalLevel, l.Nodup → (xs.foldl addIfMissing l).Nodup := by
  induction xs with
  | nil => intro l h; exact h
  | cons x xs ih => intro l h; exact ih _ (nodup_addIfMissing l x h)

theorem nodup_sortBySeniority (l : List ApprovalLevel) (h : l.Nodup) :
    (sortBySeniority l).Nodup :=
  (List.perm_insertionSort seniorityLe l).symm.nodup h

theorem pairwise_lt_sortBySeniority (l : List ApprovalLevel) (h : l.Nodup) :
    (sortBySeniority l).Pairwise fun a b => seniorityIndex a < seniorityIndex b :=
  pairwise_lt_of_sorted_nodup _ (List.sorted_insertionSort seniorityLe l)
    (nodup_sortBySeniority l h)

theorem nodup_riskBaseChain (r : RiskLevel) : (riskBaseChain r).Nodup := by
  cases r <;> decide

theorem nodup_valueEscalation (chain : List ApprovalLevel) (v : ℚ) (h : chain.Nodup) :
    (valueEscalation chain v).Nodup := by
  unfold valueEscalation
  split
  · exact nodup_foldl_addIfMissing _ _ h
  split
  · exact nodup_foldl_addIfMissing _ _ h
  split
  · exact nodup_foldl_addIfMissing _ _ h
  split
  · exact nodup_addIfMissing _ _ h
  · exact h

theorem nodup_typeOverride (chain : List ApprovalLevel) (t : ContractType) (h : chain.Nodup) :
    (typeOverride chain t).Nodup := by
  unfold typeOverride
  split
  · exact nodup_addIfMissing _ _ h
  split
  · exact nodup_addIfMissing _ _ h
  · exact h

theorem nodup_autoPruned (chain : List ApprovalLevel) (h : chain.Nodup) :
    (autoPruned chain).Nodup := by
  unfold autoPruned
  split
  · exact h.erase _
  · exact h

theorem nodup_determine_approval_chain (risk : RiskLevel) (value : ℚ) (ctype : ContractType) :
    (determine_approval_chain risk value ctype).Nodup := by
  unfold determine_approval_chain
  exact nodup_sortBySeniority _
    (nodup_autoPruned _ (nodup_typeOverride _ _ (nodup_valueEscalation _ _
      (nodup_riskBaseChain risk))))

theorem nodup_complianceEmploymentRule (l : List ApprovalLevel) (t : ContractType)
    (h : l.Nodup) : (complianceEmploymentRule l t).Nodup := by
  unfold complianceEmploymentRule
  split
  · exact nodup_addIfMissing _ _ h
  · exact h

theorem nodup_complianceValueRule (l : List ApprovalLevel) (v : ℚ) (h : l.Nodup) :
    (complianceValueRule l v).Nodup := by
  unfold complianceValueRule
  split
  · exact nodup_addIfMissing _ _ h
  · exact h

theorem nodup_complianceCriticalRule (l : List ApprovalLevel) (r : RiskLevel) (h : l.Nodup) :
    (complianceCriticalRule l r).Nodup := by
  unfold complianceCriticalRule
  split
  · exact nodup_addIfMissing _ _ h
  · exact h

theorem nodup_complianceAutoRule (l : List ApprovalLevel) (r : RiskLevel) (h : l.Nodup) :
    (complianceAutoRule l r).Nodup := by
  unfold complianceAutoRule
  split
  · exact nodup_addIfMissing _ _ (h.erase _)
  · exact h

theorem create_approval_decisions_levels (chain : List ApprovalLevel) (now : Nat) :
    (create_approval_decisions chain now).map ApprovalDecision.level = chain := by
  induction chain with
  | nil => rfl
  | cons x xs ih => simpa [create_approval_decisions] using ih

/-- C6: for every risk level, contract value and contract type, the
approval chain produced by the approval policy (router followed by
compliance validation) is strictly increasing in seniority
(`Auto < Manager < VP < Legal < CFO`) front-to-back: every rule only
appends levels not already present, and both phases end with a sort by
seniority index, so the resulting decision list is duplicate-free and
sorted. -/
theorem approval_chain_seniority_strictly_increasing (risk : RiskLevel) (value : ℚ)
    (ctype : ContractType) (now : Nat) :
    ((approvalCrewKickoff risk value ctype now).2.map ApprovalDecision.level).Pairwise
      (fun a b => seniorityIndex a < seniorityIndex b) := by
  unfold approvalCrewKickoff
  simp only
  rw [create_approval_decisions_levels]
  unfold validate_chain
  apply pairwise_lt_sortBySeniority
  apply nodup_complianceAutoRule
  apply nodup_complianceCriticalRule
  apply nodup_complianceValueRule
  apply nodup_complianceEmploymentRule
  exact nodup_determine_approval_chain risk value ctype

theorem emit_history_self (st : ContractEventStream) (sid t m : String) (now : Nat) :
    (st.emit sid t m now).1.history sid = st.history sid ++
      [{ event_type := t, session_id := sid, message := m, timestamp := now }] := by
  simp [ContractEventStream.emit]

theorem emit_queues_self (st : ContractEventStream) (sid t m : String) (now : Nat) :
    (st.emit sid t m now).1.queues sid = (st.queues sid).map fun q =>
      if q.length < st.max_queue_size then
        q ++ [some { event_type := t, session_id := sid, message := m, timestamp := now }]
      else q := by
  simp [ContractEventStream.emit]

theorem emit_max_queue_size (st : ContractEventStream) (sid t m : String) (now : Nat) :
    (st.emit sid t m now).1.max_queue_size = st.max_queue_size := rfl

theorem emitSeq_max_queue_size (sid : String) :
    ∀ (evs : List (String × String)) (st : ContractEventStream) (now : Nat),
      (emitSeq st sid evs now).max_queue_size = st.max_queue_size := by
  intro evs
  induction evs with
  | nil => intro st now; rfl
  | cons tm rest ih => intro st now; simpa [emitSeq] using ih _ _

theorem mkEvents_length (sid : String) :
    ∀ (evs : List (String × String)) (now : Nat),
      (mkEvents sid evs now).length = evs.length := by
  intro evs
  induction evs with
  | nil => intro now; rfl
  | cons tm rest ih => intro now; simpa [mkEvents] using ih _

theorem emitSeq_history (sid : String) :
    ∀ (evs : List (String × String)) (st : ContractEventStream) (now : Nat),
      (emitSeq st sid evs now).history sid = st.history sid ++ mkEvents sid evs now := by
  intro evs
  induction evs with
  | nil => intro st now; simp [emitSeq, mkEvents]
  | cons tm rest ih =>
    intro st now
    simp only [emitSeq, mkEvents]
    rw [ih, emit_history_self]
    simp

theorem emitSeq_queue (sid : String) :
    ∀ (evs : List (String × String)) (st : ContractEventStream) (now : Nat) (i : Nat)
      (q : List (Option ContractEvent)),
      (st.queues sid)[i]? = some q →
      q.length + evs.length ≤ st.max_queue_size →
      ((emitSeq st sid evs now).queues sid)[i]? =
        some (q ++ (mkEvents sid evs now).map some) := by
  intro evs
  induction evs with
  | nil => intro st now i q hq _; simpa [emitSeq, mkEvents] using hq
  | cons tm rest ih =>
    intro st now i q hq hlen
    simp only [emitSeq, mkEvents]
    have hlt : q.length < st.max_queue_size := by
      simp only [List.length_cons] at hlen
      omega
    have hq1 : ((st.emit sid tm.1 tm.2 now).1.queues sid)[i]? =
        some (q ++ [some { event_type := tm.1, session_id := sid, message := tm.2, timestamp := now }]) := by
      rw [emit_queues_self, List.getElem?_map, hq]
      simp [hlt]
    have hstep := ih (st.emit sid tm.1 tm.2 now).1 (now + 1) i _ hq1
      (by
        rw [emit_max_queue_size]
        simp only [List.length_append, List.length_cons, List.length_nil] at hlen ⊢
        omega)
    rw [hstep]
    simp

theorem subscribeRegister_queues (st : ContractEventStream) (sid : String) :
    ((st.subscribeRegister sid).1.queues sid) = st.queues sid ++ [[]] := by
  simp [ContractEventStream.subscribeRegister]

theorem subscribeRegister_history (st : ContractEventStream) (sid : String) :
    (st.subscribeRegister sid).1.history = st.history := rfl

theorem subscribeRegister_max (st : ContractEventStream) (sid : String) :
    (st.subscribeRegister sid).1.max_queue_size = st.max_queue_size := rfl

theorem consumeLive_mem :
    ∀ (ms : List (Option ContractEvent)) (e : ContractEvent),
      e ∈ (consumeLive ms).1 → some e ∈ ms := by
  intro ms
  induction ms with
  | nil => intro e h; simp [consumeLive] at h
  | cons m rest ih =>
    intro e h
    cases m with
    | none => simp [consumeLive] at h
    | some x =>
      rw [consumeLive] at h
      split at h
      · simp only [List.mem_singleton] at h
        rw [h]; exact List.mem_cons_self _ _
      · simp only [List.mem_cons] at h
        rcases h with h1 | h2
        · rw [h1]; exact List.mem_cons_self _ _
        · exact List.mem_cons_of_mem _ (ih e h2)

/-- C8: a subscriber joining a session after `k = before.length` events
were emitted gets exactly those `k` events replayed from history in their
original order, its fresh queue then holds exactly the events emitted
after the join (in order, under the 256-message bound), and the sequence
the subscriber yields starts with the `k` historical events and continues
only with post-join events. -/
theorem subscriber_receives_history_then_live (before after : List (String × String))
    (sid : String) (t0 : Nat) (h : after.length ≤ 256) :
    (emitSeq ContractEventStream.init sid before t0).history sid = mkEvents sid before t0 ∧
    ((emitSeq ((emitSeq ContractEventStream.init sid before t0).subscribeRegister sid).1
          sid after (t0 + before.length)).queues sid)[
        ((emitSeq ContractEventStream.init sid before t0).subscribeRegister sid).2]? =
      some ((mkEvents sid after (t0 + before.length)).map some) ∧
    (subscriberEvents (mkEvents sid before t0)
        ((mkEvents sid after (t0 + before.length)).map some)).take before.length =
      mkEvents sid before t0 ∧
    ∀ e ∈ (subscriberEvents (mkEvents sid before t0)
        ((mkEvents sid after (t0 + before.length)).map some)).drop before.length,
      some e ∈ (mkEvents sid after (t0 + before.length)).map some := by
  refine ⟨?_, ?_, ?_, ?_⟩
  · rw [emitSeq_history]
    rfl
  · have hidx : (((emitSeq ContractEventStream.init sid before t0).subscribeRegister
        sid).1.queues sid)[
        ((emitSeq ContractEventStream.init sid before t0).subscribeRegister sid).2]? =
        some ([] : List (Option ContractEvent)) := by
      rw [subscribeRegister_queues]
      simp [ContractEventStream.subscribeRegister]
    have hmax : (((emitSeq ContractEventStream.init sid before t0).subscribeRegister
        sid).1.max_queue_size) = 256 := by
      rw [subscribeRegister_max, emitSeq_max_queue_size]
      rfl
    have := emitSeq_queue sid after _ (t0 + before.length) _ _ hidx
      (by rw [hmax]; simpa using h)
    simpa using this
  · rw [subscriberEvents, ← mkEvents_length sid before t0, List.take_left]
  · intro e he
    have hlen := mkEvents_length sid before t0
    rw [subscriberEvents, ← hlen, List.drop_left] at he
    have hmem := consumeLive_mem _ e he
    rw [hlen] at hmem
    exact hmem

/-- Witness for C8: five events before the join, one after. -/
theorem subscriber_receives_history_then_live_witness :
    ([("f", "")] : List (String × String)).length ≤ 256 ∧
    (emitSeq ContractEventStream.init "s"
        [("a", ""), ("b", ""), ("c", ""), ("d", ""), ("e", "")] 0).history "s" =
      mkEvents "s" [("a", ""), ("b", ""), ("c", ""), ("d", ""), ("e", "")] 0 ∧
    (subscriberEvents
        (mkEvents "s" [("a", ""), ("b", ""), ("c", ""), ("d", ""), ("e", "")] 0)
        ((mkEvents "s" [("f", "")] (0 + 5)).map some)).take 5 =
      mkEvents "s" [("a", ""), ("b", ""), ("c", ""), ("d", ""), ("e", "")] 0 :=
  ⟨by decide,
    (subscriber_receives_history_then_live
      [("a", ""), ("b", ""), ("c", ""), ("d", ""), ("e", "")] [("f", "")] "s" 0
      (by decide)).1,
    (subscriber_receives_history_then_live
      [("a", ""), ("b", ""), ("c", ""), ("d", ""), ("e", "")] [("f", "")] "s" 0
      (by decide)).2.2.1⟩

theorem consumeLive_sentinel_terminates :
    ∀ ms : List (Option ContractEvent), (consumeLive (ms ++ [none])).2 = true := by
  intro ms
  induction ms with
  | nil => rfl
  | cons m rest ih =>
    cases m with
    | none => rfl
    | some x =>
      simp only [List.cons_append, consumeLive]
      split
      · rfl
      · simpa using ih

/-- C10: for a session whose history already ends with a `completed` or
`error` event and with nothing further emitted, a new subscriber replays
the whole history (the terminal-type check is applied only to
queue-delivered events, not replayed ones) yet its loop has not exited —
it stays blocked on the empty queue — until `close` puts the `None`
sentinel into each live queue, which always terminates the loop. -/
theorem subscriber_replays_terminal_history_without_terminating
    (history : List ContractEvent) (e : ContractEvent)
    (hlast : history.getLast? = some e)
    (hterm : e.event_type = EVENT_COMPLETED ∨ e.event_type = EVENT_ERROR) :
    subscriberEvents history [] = history ∧
    subscriberTerminated [] = false ∧
    (∀ (st : ContractEventStream) (sid : String) (i : Nat)
        (q : List (Option ContractEvent)),
        (st.queues sid)[i]? = some q → q.length < st.max_queue_size →
        ((st.close sid).2)[i]? = some (q ++ [none])) ∧
    ∀ ms : List (Option ContractEvent), subscriberTerminated (ms ++ [none]) = true := by
  refine ⟨?_, rfl, ?_, ?_⟩
  · simp [subscriberEvents, consumeLive]
  · intro st sid i q hq hlt
    simp only [ContractEventStream.close]
    rw [List.getElem?_map, hq]
    simp [hlt]
  · intro ms
    exact consumeLive_sentinel_terminates ms

/-- Witness for C10: a history ending with a `completed` event. -/
theorem subscriber_replays_terminal_history_witness :
    ([{ event_type := "completed", session_id := "s" }] :
        List ContractEvent).getLast? =
      some { event_type := "completed", session_id := "s" } ∧
    subscriberEvents [{ event_type := "completed", session_id := "s" }] [] =
      [{ event_type := "completed", session_id := "s" }] ∧
    subscriberTerminated [] = false :=
  ⟨rfl,
    (subscriber_replays_terminal_history_without_terminating
      [{ event_type := "completed", session_id := "s" }]
      { event_type := "completed", session_id := "s" } rfl (Or.inl rfl)).1,
    (subscriber_replays_terminal_history_without_terminating
      [{ event_type := "completed", session_id := "s" }]
      { event_type := "completed", session_id := "s" } rfl (Or.inl rfl)).2.1⟩

end ContractLifecycle
